import Mathlib

/-!
Shallow embedding of the xp-mailer wrapper (source: src/unnamed/part_000,
the current version of lib/index.js, which adds the `noreply` default sender
and `ValidationError` reporting over the older src/lib/index.js).

JavaScript runtime values are modelled by `JSVal`; the expandjs type-check
helpers (`XP.isVoid`, `XP.isString`, `XP.isObject`, `XP.isArray`,
`XP.isDefined`, `XP.isInt`) and JS truthiness / `||` are modelled below.
Numbers are modelled as integers; none of the verified properties depends on
non-integer numbers.
-/

namespace XPMailer

/-- A JavaScript value, as far as the mailer's checks can distinguish them.
Objects carry only an emptiness flag (the configuration default `tls = {}`
is the empty object). -/
inductive JSVal where
  | undef
  | null
  | str (s : String)
  | num (n : Int)
  | boolean (b : Bool)
  | obj (isEmpty : Bool)
  | arr
deriving DecidableEq

/-- Models expandjs `XP.isVoid`: the value is `null` or `undefined`. -/
def isVoid : JSVal → Bool
  | .undef => true
  | .null => true
  | _ => false

/-- Models expandjs `XP.isString(value, notEmpty)`: a string, and non-empty
when the flag is set. -/
def isString : JSVal → Bool → Bool
  | .str s, nonEmpty => !nonEmpty || !(s == "")
  | _, _ => false

/-- Models expandjs `XP.isObject`. -/
def isObject : JSVal → Bool
  | .obj _ => true
  | _ => false

/-- Models expandjs `XP.isArray`. -/
def isArray : JSVal → Bool
  | .arr => true
  | _ => false

/-- Models expandjs `XP.isDefined`: the value is not `undefined`. -/
def isDefined : JSVal → Bool
  | .undef => false
  | _ => true

/-- Models expandjs `XP.isInt(value, notNegative)` (numbers modelled as
integers). -/
def isInt : JSVal → Bool → Bool
  | .num n, notNeg => !notNeg || decide (0 ≤ n)
  | _, _ => false

/-- JavaScript truthiness. -/
def truthy : JSVal → Bool
  | .undef => false
  | .null => false
  | .str s => !(s == "")
  | .num n => !(n == 0)
  | .boolean b => b
  | .obj _ => true
  | .arr => true

/-- JavaScript `a || b`. -/
def jsOr (a b : JSVal) : JSVal := if truthy a then a else b

/-- The error raised by an XP.Class `validate` hook or by `send`'s assertion
block: a field path together with the expected type. -/
structure ValidationError where
  fieldPath : String
  expectedType : String
deriving DecidableEq

/-! ### The `send` operation (src/unnamed/part_000, lines 81-102) -/

/-- The fields of a `mail` argument that is an object; each field is an
arbitrary JS value (absent fields are `undef`). -/
structure MailFields where
  «to» : JSVal
  «from» : JSVal
  cc : JSVal
  bcc : JSVal
  html : JSVal
  text : JSVal
deriving DecidableEq

/-- A `mail` argument to `send`: either some value failing `XP.isObject`,
or an object with the six recognised fields. -/
inductive MailInput where
  | notObject
  | mk (f : MailFields)
deriving DecidableEq

/-- What `send` does after validating: either the callback got a validation
error, or the merged payload (mail fields plus the `attachments` value) was
forwarded to `transporter.sendMail`. -/
inductive SendOutcome where
  | err (e : ValidationError)
  | sent (mailMerged : MailFields) (attachments : JSVal)
deriving DecidableEq

/-- The caller-observable result of one `send` call: the outcome, and the
state of the caller's `mail` object after the call (the source mutates
`mail.from` in place before forwarding a copy). -/
structure SendResult where
  outcome : SendOutcome
  mailAfter : MailInput
deriving DecidableEq

/-- The `send` method of src/unnamed/part_000 (lines 81-102): the assertion
block in source order — each failed check invokes the callback with a
`ValidationError` and returns — then `mail.from = mail.from || this.noreply`
(an in-place mutation of the caller's object), then
`sendMail(Object.assign({}, mail, {attachments}), callback)`.
Note the `bcc` check names `mail.cc`, exactly as the source does. -/
def send (noreply : JSVal) (mail : MailInput) (attachments : JSVal) : SendResult :=
  match mail with
  | .notObject => ⟨.err ⟨"mail", "Object"⟩, .notObject⟩
  | .mk f =>
    if !isString f.«to» true then ⟨.err ⟨"mail.to", "string"⟩, .mk f⟩
    else if !isVoid f.«from» && !isString f.«from» true then ⟨.err ⟨"mail.from", "string"⟩, .mk f⟩
    else if !isVoid f.cc && !isString f.cc false then ⟨.err ⟨"mail.cc", "string"⟩, .mk f⟩
    else if !isVoid f.bcc && !isString f.bcc false then ⟨.err ⟨"mail.cc", "string"⟩, .mk f⟩
    else if !isVoid f.html && !isString f.html false then ⟨.err ⟨"mail.html", "string"⟩, .mk f⟩
    else if !isVoid f.text && !isString f.text false then ⟨.err ⟨"mail.text", "string"⟩, .mk f⟩
    else if !isVoid attachments && !isArray attachments then ⟨.err ⟨"attachments", "Array"⟩, .mk f⟩
    else if !truthy f.«from» && !truthy noreply then ⟨.err ⟨"mail.from", "string"⟩, .mk f⟩
    else
      let f2 : MailFields := {f with «from» := jsOr f.«from» noreply}
      ⟨.sent f2 attachments, .mk f2⟩

example : (send .null (.mk ⟨.str "a@b", .str "c@d", .undef, .num 7, .undef, .undef⟩) .undef).outcome
    = .err ⟨"mail.cc", "string"⟩ := by decide

example : (send (.str "nr@x") (.mk ⟨.str "a@b", .undef, .undef, .undef, .undef, .undef⟩) .undef).outcome
    = .sent ⟨.str "a@b", .str "nr@x", .undef, .undef, .undef, .undef⟩ .undef := by decide

/-! ### Configuration (src/unnamed/part_000, `initialize` and the property
descriptors, lines 36-57 and 105-200)

Each XP.Class property descriptor gives a `set(val)` hook, computing the
stored value from the current one (first-write-wins), and an optional
`validate(val)` hook, whose truthy string result raises a `ValidationError`
named after the property. These are embedded one function per property,
`<prop>Set` for the hook and `<prop>Assign` for a whole assignment
(validate, then store). The `transporter` property holds the external
nodemailer handle and is not modelled. -/

/-- The `options` record passed to the constructor; absent fields are
`undef`. -/
structure Options where
  auth : JSVal
  hostname : JSVal
  name : JSVal
  noreply : JSVal
  port : JSVal
  tls : JSVal
  secure : JSVal
deriving DecidableEq

/-- The configuration fields of a mailer instance; before construction each
is `undef`. -/
structure Config where
  auth : JSVal
  hostname : JSVal
  name : JSVal
  noreply : JSVal
  port : JSVal
  tls : JSVal
  secure : JSVal
deriving DecidableEq

/-- A freshly created instance: no field assigned yet. -/
def Config.empty : Config := ⟨.undef, .undef, .undef, .undef, .undef, .undef, .undef⟩

/-- `auth` set hook: `this.auth || val`. -/
def authSet (cur val : JSVal) : JSVal := jsOr cur val

/-- An assignment to `auth`: `validate` is `!XP.isObject(val) && 'Object'`. -/
def authAssign (cur val : JSVal) : Except ValidationError JSVal :=
  if !isObject val then .error ⟨"auth", "Object"⟩ else .ok (authSet cur val)

/-- `hostname` set hook: `this.hostname || val`. -/
def hostnameSet (cur val : JSVal) : JSVal := jsOr cur val

/-- An assignment to `hostname`: `validate` is `!XP.isString(val) && 'string'`. -/
def hostnameAssign (cur val : JSVal) : Except ValidationError JSVal :=
  if !isString val false then .error ⟨"hostname", "string"⟩ else .ok (hostnameSet cur val)

/-- `name` set hook: `XP.isDefined(this.name) ? this.name : val`. -/
def nameSet (cur val : JSVal) : JSVal := if isDefined cur then cur else val

/-- An assignment to `name`: `validate` allows void or string. -/
def nameAssign (cur val : JSVal) : Except ValidationError JSVal :=
  if !isVoid val && !isString val false then .error ⟨"name", "string"⟩
  else .ok (nameSet cur val)

/-- `noreply` set hook: `XP.isDefined(this.noreply) ? this.noreply : val`. -/
def noreplySet (cur val : JSVal) : JSVal := if isDefined cur then cur else val

/-- An assignment to `noreply`: `validate` allows void or string. -/
def noreplyAssign (cur val : JSVal) : Except ValidationError JSVal :=
  if !isVoid val && !isString val false then .error ⟨"noreply", "string"⟩
  else .ok (noreplySet cur val)

/-- `port` set hook: `XP.isDefined(this.port) ? this.port : val`. -/
def portSet (cur val : JSVal) : JSVal := if isDefined cur then cur else val

/-- An assignment to `port`: `validate` allows void or non-negative integer. -/
def portAssign (cur val : JSVal) : Except ValidationError JSVal :=
  if !isVoid val && !isInt val true then .error ⟨"port", "number"⟩
  else .ok (portSet cur val)

/-- `tls` set hook: `this.tls || val`. -/
def tlsSet (cur val : JSVal) : JSVal := jsOr cur val

/-- An assignment to `tls`: `validate` allows void or object. -/
def tlsAssign (cur val : JSVal) : Except ValidationError JSVal :=
  if !isVoid val && !isObject val then .error ⟨"tls", "Object"⟩
  else .ok (tlsSet cur val)

/-- `secure` set hook: `XP.isDefined(this.secure) ? this.secure : Boolean(val)`;
this property has no `validate` hook. -/
def secureSet (cur val : JSVal) : JSVal :=
  if isDefined cur then cur else .boolean (truthy val)

/-- The body of `initialize(options)` (lines 36-57) run against an instance
whose fields currently hold `c`: the seven property assignments, in source
order, with the source's `|| default` value computations; a failing
`validate` hook raises the corresponding `ValidationError`. The
`this.options` plain member and the `transporter` creation (delegated to
nodemailer's `createTransport`) are not tracked. -/
def constructOn (c : Config) (o : Options) : Except ValidationError Config :=
  match authAssign c.auth o.auth with
  | .error e => .error e
  | .ok av =>
    match hostnameAssign c.hostname (jsOr o.hostname (.str "localhost")) with
    | .error e => .error e
    | .ok hv =>
      match nameAssign c.name (jsOr o.name .null) with
      | .error e => .error e
      | .ok nv =>
        match noreplyAssign c.noreply (jsOr o.noreply .null) with
        | .error e => .error e
        | .ok rv =>
          match portAssign c.port (jsOr o.port .null) with
          | .error e => .error e
          | .ok pv =>
            match tlsAssign c.tls (jsOr o.tls (.obj true)) with
            | .error e => .error e
            | .ok tv =>
              .ok ⟨av, hv, nv, rv, pv, tv, secureSet c.secure (jsOr o.secure (.boolean false))⟩

/-- Construction: the `initialize` body run on a fresh instance. -/
def construct (o : Options) : Except ValidationError Config :=
  constructOn Config.empty o

example : construct ⟨.obj false, .undef, .undef, .undef, .undef, .undef, .undef⟩
    = .ok ⟨.obj false, .str "localhost", .null, .null, .null, .obj true, .boolean false⟩ := rfl

example : construct ⟨.undef, .str "h", .undef, .undef, .undef, .undef, .undef⟩
    = .error ⟨"auth", "Object"⟩ := rfl

/-! ### Callback accounting -/

/-- The reply of the external transport's `sendMail` to the one callback it
invokes (spec collaborator contract): an error or a success result. -/
inductive TransportReply where
  | failure
  | success
deriving DecidableEq

/-- One invocation of the `send` callback. -/
inductive CallbackCall where
  | validationFailure (e : ValidationError)
  | transportResult (r : TransportReply)
deriving DecidableEq

/-- The sequence of callback invocations produced by one `send` call: a
failed check invokes the callback once (with the validation error) and
returns; otherwise `sendMail` receives the callback and invokes it once
with its reply. -/
def callbackCalls (noreply : JSVal) (mail : MailInput) (attachments : JSVal)
    (reply : TransportReply) : List CallbackCall :=
  match (send noreply mail attachments).outcome with
  | .err e => [.validationFailure e]
  | .sent _ _ => [.transportResult reply]

/-! ### The validation checks as an ordered list -/

/-- The assertion block of `send` on an object argument, as an ordered list
of pairs (check fails, error the check raises), in the source's order. The
final entry is the default-sender check `!mail.from && !this.noreply`,
which the source places after the `attachments` check. -/
def orderedChecks (noreply : JSVal) (f : MailFields) (attachments : JSVal) :
    List (Bool × ValidationError) :=
  [ (!isString f.«to» true, ⟨"mail.to", "string"⟩),
    (!isVoid f.«from» && !isString f.«from» true, ⟨"mail.from", "string"⟩),
    (!isVoid f.cc && !isString f.cc false, ⟨"mail.cc", "string"⟩),
    (!isVoid f.bcc && !isString f.bcc false, ⟨"mail.cc", "string"⟩),
    (!isVoid f.html && !isString f.html false, ⟨"mail.html", "string"⟩),
    (!isVoid f.text && !isString f.text false, ⟨"mail.text", "string"⟩),
    (!isVoid attachments && !isArray attachments, ⟨"attachments", "Array"⟩),
    (!truthy f.«from» && !truthy noreply, ⟨"mail.from", "string"⟩) ]

/-- An object `mail` argument passes every check of the assertion block. -/
def passesFields (noreply : JSVal) (f : MailFields) (attachments : JSVal) : Bool :=
  isString f.«to» true
    && (isVoid f.«from» || isString f.«from» true)
    && (isVoid f.cc || isString f.cc false)
    && (isVoid f.bcc || isString f.bcc false)
    && (isVoid f.html || isString f.html false)
    && (isVoid f.text || isString f.text false)
    && (isVoid attachments || isArray attachments)
    && (truthy f.«from» || truthy noreply)

/-- A `send` input passes the whole assertion block. -/
def passes (noreply : JSVal) (mail : MailInput) (attachments : JSVal) : Bool :=
  match mail with
  | .notObject => false
  | .mk f => passesFields noreply f attachments

/-- The fields that `send` checks 4 of §4.2 look at (`cc`, `bcc`, `html`,
`text`) and the `attachments` argument are all valid: each is void or of
the required shape. -/
def restOk (f : MailFields) (attachments : JSVal) : Bool :=
  (isVoid f.cc || isString f.cc false)
    && (isVoid f.bcc || isString f.bcc false)
    && (isVoid f.html || isString f.html false)
    && (isVoid f.text || isString f.text false)
    && (isVoid attachments || isArray attachments)

/-- Every field of the configuration holds a value that its own set hook
will keep: a truthy value for the truthiness-guarded fields (`auth`,
`hostname`, `tls`) and a defined value for the definedness-guarded ones
(`name`, `noreply`, `port`, `secure`). -/
def goodConfig (c : Config) : Bool :=
  truthy c.auth && truthy c.hostname && isDefined c.name && isDefined c.noreply
    && isDefined c.port && truthy c.tls && isDefined c.secure

/-! ### Helper lemmas -/

/-- Master characterisation of `send` on object arguments: the outcome is
the error of the first failing entry of `orderedChecks`, and when no entry
fails, the callers object gets `from := from || noreply` in place and the
merged payload is forwarded. -/
theorem send_mk_eq (noreply : JSVal) (f : MailFields) (attachments : JSVal) :
    send noreply (.mk f) attachments =
      (((orderedChecks noreply f attachments).find? (fun c => c.1)).elim
        ⟨.sent {f with «from» := jsOr f.«from» noreply} attachments,
          .mk {f with «from» := jsOr f.«from» noreply}⟩
        (fun c => ⟨.err c.2, .mk f⟩)) := by
  simp only [send, orderedChecks]
  cases h1 : (!isString f.«to» true) with
  | true => simp [List.find?, h1]
  | false =>
    cases h2 : (!isVoid f.«from» && !isString f.«from» true) with
    | true => simp [List.find?, h1, h2]
    | false =>
      cases h3 : (!isVoid f.cc && !isString f.cc false) with
      | true => simp [List.find?, h1, h2, h3]
      | false =>
        cases h4 : (!isVoid f.bcc && !isString f.bcc false) with
        | true => simp [List.find?, h1, h2, h3, h4]
        | false =>
          cases h5 : (!isVoid f.html && !isString f.html false) with
          | true => simp [List.find?, h1, h2, h3, h4, h5]
          | false =>
            cases h6 : (!isVoid f.text && !isString f.text false) with
            | true => simp [List.find?, h1, h2, h3, h4, h5, h6]
            | false =>
              cases h7 : (!isVoid attachments && !isArray attachments) with
              | true => simp [List.find?, h1, h2, h3, h4, h5, h6, h7]
              | false =>
                cases h8 : (!truthy f.«from» && !truthy noreply) with
                | true => simp [List.find?, h1, h2, h3, h4, h5, h6, h7, h8]
                | false => simp [List.find?, h1, h2, h3, h4, h5, h6, h7, h8]

lemma bool_neg_pair (a b : Bool) : ((!a && !b) = false) ↔ ((a || b) = true) := by
  cases a <;> cases b <;> decide

lemma truthy_false_of_isVoid {v : JSVal} (h : isVoid v = true) : truthy v = false := by
  cases v <;> simp_all [isVoid, truthy]

lemma isString_false_of_isVoid {v : JSVal} (h : isVoid v = true) (b : Bool) :
    isString v b = false := by
  cases v <;> simp_all [isVoid, isString]

lemma isDefined_of_truthy {v : JSVal} (h : truthy v = true) : isDefined v = true := by
  cases v <;> simp_all [truthy, isDefined]

lemma truthy_of_isObject {v : JSVal} (h : isObject v = true) : truthy v = true := by
  cases v <;> simp_all [isObject, truthy]

lemma jsOr_left {a : JSVal} (b : JSVal) (h : truthy a = true) : jsOr a b = a := by
  simp [jsOr, h]

lemma truthy_jsOr_right {a b : JSVal} (h : truthy b = true) : truthy (jsOr a b) = true := by
  by_cases ht : truthy a = true <;> simp [jsOr, ht, h]

lemma isDefined_jsOr_right {a b : JSVal} (h : isDefined b = true) :
    isDefined (jsOr a b) = true := by
  by_cases ht : truthy a = true <;>
    simp [jsOr, ht, h, isDefined_of_truthy]

lemma bool_pair_parts {a b : Bool} (h : (!a && !b) = true) : a = false ∧ b = false := by
  cases a <;> cases b <;> simp_all

lemma bool_not_false {a : Bool} (h : (!a) = false) : a = true := by
  cases a <;> simp_all

/-- The transport is handed the payload exactly when the whole assertion
block passes. -/
lemma send_sent_iff (noreply : JSVal) (f : MailFields) (attachments : JSVal) :
    (∃ f2 a2, (send noreply (.mk f) attachments).outcome = .sent f2 a2)
      ↔ passesFields noreply f attachments = true := by
  simp only [send]
  cases h1 : (!isString f.«to» true) with
  | true => simp [passesFields, bool_not_false (a := isString f.«to» true), h1,
      show isString f.«to» true = false by cases hx : isString f.«to» true <;> simp_all]
  | false =>
    cases h2 : (!isVoid f.«from» && !isString f.«from» true) with
    | true =>
      obtain ⟨hx, hy⟩ := bool_pair_parts h2
      simp [passesFields, bool_not_false h1, hx, hy, h2]
    | false =>
      cases h3 : (!isVoid f.cc && !isString f.cc false) with
      | true =>
        obtain ⟨hx, hy⟩ := bool_pair_parts h3
        simp [passesFields, hx, hy, h1, h2, h3]
      | false =>
        cases h4 : (!isVoid f.bcc && !isString f.bcc false) with
        | true =>
          obtain ⟨hx, hy⟩ := bool_pair_parts h4
          simp [passesFields, hx, hy, h1, h2, h3, h4]
        | false =>
          cases h5 : (!isVoid f.html && !isString f.html false) with
          | true =>
            obtain ⟨hx, hy⟩ := bool_pair_parts h5
            simp [passesFields, hx, hy, h1, h2, h3, h4, h5]
          | false =>
            cases h6 : (!isVoid f.text && !isString f.text false) with
            | true =>
              obtain ⟨hx, hy⟩ := bool_pair_parts h6
              simp [passesFields, hx, hy, h1, h2, h3, h4, h5, h6]
            | false =>
              cases h7 : (!isVoid attachments && !isArray attachments) with
              | true =>
                obtain ⟨hx, hy⟩ := bool_pair_parts h7
                simp [passesFields, hx, hy, h1, h2, h3, h4, h5, h6, h7]
              | false =>
                cases h8 : (!truthy f.«from» && !truthy noreply) with
                | true =>
                  obtain ⟨hx, hy⟩ := bool_pair_parts h8
                  simp [passesFields, hx, hy, h1, h2, h3, h4, h5, h6, h7, h8]
                | false =>
                  simp [passesFields, h1, h2, h3, h4, h5, h6, h7, h8,
                    bool_not_false h1, (bool_neg_pair _ _).mp h2,
                    (bool_neg_pair _ _).mp h3, (bool_neg_pair _ _).mp h4,
                    (bool_neg_pair _ _).mp h5, (bool_neg_pair _ _).mp h6,
                    (bool_neg_pair _ _).mp h7, (bool_neg_pair _ _).mp h8]

/-- On an otherwise valid message whose `from` is void and with no truthy
`noreply` configured, `send` raises the `mail.from` error from the final
check of the assertion block. -/
lemma send_missing_from_err (noreply : JSVal) (f : MailFields) (attachments : JSVal)
    (hfrom : isVoid f.«from» = true) (hto : isString f.«to» true = true)
    (hrest : restOk f attachments = true) (hn : truthy noreply = false) :
    send noreply (.mk f) attachments = ⟨.err ⟨"mail.from", "string"⟩, .mk f⟩ := by
  simp only [restOk, Bool.and_eq_true] at hrest
  obtain ⟨⟨⟨⟨hcc, hbcc⟩, hhtml⟩, htext⟩, hatt⟩ := hrest
  simp [send, hto, hfrom, truthy_false_of_isVoid hfrom, hn,
    (bool_neg_pair _ _).mpr hcc, (bool_neg_pair _ _).mpr hbcc,
    (bool_neg_pair _ _).mpr hhtml, (bool_neg_pair _ _).mpr htext,
    (bool_neg_pair _ _).mpr hatt]

/-- On an otherwise valid message whose `from` is void and with a truthy
`noreply` configured, `send` writes `noreply` into the caller's `from`
field and forwards the merged payload. -/
lemma send_subst (noreply : JSVal) (f : MailFields) (attachments : JSVal)
    (hfrom : isVoid f.«from» = true) (hto : isString f.«to» true = true)
    (hrest : restOk f attachments = true) (hn : truthy noreply = true) :
    send noreply (.mk f) attachments =
      ⟨.sent {f with «from» := noreply} attachments,
        .mk {f with «from» := noreply}⟩ := by
  simp only [restOk, Bool.and_eq_true] at hrest
  obtain ⟨⟨⟨⟨hcc, hbcc⟩, hhtml⟩, htext⟩, hatt⟩ := hrest
  simp [send, hto, hfrom, truthy_false_of_isVoid hfrom, hn, jsOr,
    (bool_neg_pair _ _).mpr hcc, (bool_neg_pair _ _).mpr hbcc,
    (bool_neg_pair _ _).mpr hhtml, (bool_neg_pair _ _).mpr htext,
    (bool_neg_pair _ _).mpr hatt]

/-- A successful run of the constructor body stores, for each property, the
value its set hook computes from the current field and the assigned value. -/
lemma constructOn_ok (c : Config) (o : Options) (c₂ : Config)
    (h : constructOn c o = .ok c₂) :
    c₂ = ⟨authSet c.auth o.auth,
          hostnameSet c.hostname (jsOr o.hostname (.str "localhost")),
          nameSet c.name (jsOr o.name .null),
          noreplySet c.noreply (jsOr o.noreply .null),
          portSet c.port (jsOr o.port .null),
          tlsSet c.tls (jsOr o.tls (.obj true)),
          secureSet c.secure (jsOr o.secure (.boolean false))⟩
      ∧ isObject o.auth = true := by
  by_cases hA : isObject o.auth = false
  · simp [constructOn, authAssign, hA] at h
  by_cases hH : isString (jsOr o.hostname (JSVal.str "localhost")) false = false
  · simp [constructOn, authAssign, hostnameAssign, hA, hH] at h
  by_cases hN : isVoid (jsOr o.name JSVal.null) = false
      ∧ isString (jsOr o.name JSVal.null) false = false
  · simp [constructOn, authAssign, hostnameAssign, nameAssign, hA, hH, hN] at h
  by_cases hR : isVoid (jsOr o.noreply JSVal.null) = false
      ∧ isString (jsOr o.noreply JSVal.null) false = false
  · simp [constructOn, authAssign, hostnameAssign, nameAssign, noreplyAssign,
      hA, hH, hN, hR] at h
  by_cases hP : isVoid (jsOr o.port JSVal.null) = false
      ∧ isInt (jsOr o.port JSVal.null) true = false
  · simp [constructOn, authAssign, hostnameAssign, nameAssign, noreplyAssign,
      portAssign, hA, hH, hN, hR, hP] at h
  by_cases hT : isVoid (jsOr o.tls (JSVal.obj true)) = false
      ∧ isObject (jsOr o.tls (JSVal.obj true)) = false
  · simp [constructOn, authAssign, hostnameAssign, nameAssign, noreplyAssign,
      portAssign, tlsAssign, hA, hH, hN, hR, hP, hT] at h
  simp [constructOn, authAssign, hostnameAssign, nameAssign, noreplyAssign,
    portAssign, tlsAssign, hA, hH, hN, hR, hP, hT] at h
  subst h
  exact ⟨rfl, by simpa using hA⟩

lemma nameSet_defined {cur val : JSVal} (h : isDefined val = true) :
    isDefined (nameSet cur val) = true := by
  by_cases hc : isDefined cur = true <;> simp [nameSet, hc, h]

lemma noreplySet_defined {cur val : JSVal} (h : isDefined val = true) :
    isDefined (noreplySet cur val) = true := by
  by_cases hc : isDefined cur = true <;> simp [noreplySet, hc, h]

lemma portSet_defined {cur val : JSVal} (h : isDefined val = true) :
    isDefined (portSet cur val) = true := by
  by_cases hc : isDefined cur = true <;> simp [portSet, hc, h]

lemma secureSet_defined (cur val : JSVal) : isDefined (secureSet cur val) = true := by
  cases cur <;> simp [secureSet, isDefined]

/-- Whatever configuration a successful constructor run starts from, it
leaves every field holding a value its set hook will keep. -/
lemma constructOn_ok_good (c : Config) (o : Options) (c₂ : Config)
    (h : constructOn c o = .ok c₂) : goodConfig c₂ = true := by
  obtain ⟨hc2, hauth⟩ := constructOn_ok c o c₂ h
  subst hc2
  simp only [goodConfig, Bool.and_eq_true]
  refine ⟨⟨⟨⟨⟨⟨?_, ?_⟩, ?_⟩, ?_⟩, ?_⟩, ?_⟩, ?_⟩
  · exact truthy_jsOr_right (truthy_of_isObject hauth)
  · exact truthy_jsOr_right (truthy_jsOr_right (by decide))
  · exact nameSet_defined (isDefined_jsOr_right (by decide))
  · exact noreplySet_defined (isDefined_jsOr_right (by decide))
  · exact portSet_defined (isDefined_jsOr_right (by decide))
  · exact truthy_jsOr_right (truthy_jsOr_right (by decide))
  · exact secureSet_defined _ _

/-- A constructor run against a configuration whose fields are all kept by
their set hooks changes nothing. -/
lemma constructOn_good_fixed (c : Config) (o : Options) (c₂ : Config)
    (hg : goodConfig c = true) (h : constructOn c o = .ok c₂) : c₂ = c := by
  obtain ⟨hc2, -⟩ := constructOn_ok c o c₂ h
  subst hc2
  obtain ⟨ca, ch, cn, cr, cp, ct, cs⟩ := c
  simp only [goodConfig, Bool.and_eq_true] at hg
  obtain ⟨⟨⟨⟨⟨⟨ha, hh⟩, hn⟩, hr⟩, hp⟩, ht⟩, hs⟩ := hg
  simp [authSet, hostnameSet, nameSet, noreplySet, portSet, tlsSet, secureSet,
    jsOr_left _ ha, jsOr_left _ hh, hn, hr, hp, jsOr_left _ ht, hs]

/-! ### Claims -/

/-- C1: for every otherwise valid message whose `from` field is missing:
with no default sender configured, `send` hands its callback a
`ValidationError` naming `mail.from` (so the transport is not contacted);
with a default sender configured, the payload is forwarded to the
transport's `sendMail` with `from` equal to the configured noreply
address. -/
theorem send_missing_from_default_sender (noreply : JSVal) (f : MailFields)
    (attachments : JSVal) (hfrom : isVoid f.«from» = true)
    (hto : isString f.«to» true = true) (hrest : restOk f attachments = true) :
    (truthy noreply = false →
      (send noreply (.mk f) attachments).outcome = .err ⟨"mail.from", "string"⟩)
    ∧ (truthy noreply = true →
      (send noreply (.mk f) attachments).outcome
        = .sent {f with «from» := noreply} attachments) := by
  constructor
  · intro hn
    rw [send_missing_from_err noreply f attachments hfrom hto hrest hn]
  · intro hn
    rw [send_subst noreply f attachments hfrom hto hrest hn]

theorem send_missing_from_default_sender_witness :
    (send .null (.mk ⟨.str "to@x.io", .undef, .undef, .undef, .undef, .undef⟩) .undef).outcome
      = .err ⟨"mail.from", "string"⟩
    ∧ (send (.str "noreply@x.io")
        (.mk ⟨.str "to@x.io", .undef, .undef, .undef, .undef, .undef⟩) .undef).outcome
      = .sent ⟨.str "to@x.io", .str "noreply@x.io", .undef, .undef, .undef, .undef⟩ .undef :=
  ⟨(send_missing_from_default_sender .null
      ⟨.str "to@x.io", .undef, .undef, .undef, .undef, .undef⟩ .undef
      (by decide) (by decide) (by decide)).1 (by decide),
   (send_missing_from_default_sender (.str "noreply@x.io")
      ⟨.str "to@x.io", .undef, .undef, .undef, .undef, .undef⟩ .undef
      (by decide) (by decide) (by decide)).2 (by decide)⟩

/-- C2 counterexample: the message `{to: "to@x.io", cc: 1}` with no default
sender configured violates both the claim's check 3 (`from` must be a
non-empty string, no default sender is configured) and its check 4 (`cc`
must be a string if present); the claim's ordering demands the error of
check 3 (`mail.from`), but the code's callback receives the `mail.cc`
error, because the code runs the missing-`from` check last, not third. -/
theorem send_order_counterexample :
    (send .null (.mk ⟨.str "to@x.io", .undef, .num 1, .undef, .undef, .undef⟩) .undef).outcome
      = .err ⟨"mail.cc", "string"⟩
    ∧ isVoid JSVal.undef = true
    ∧ truthy JSVal.null = false
    ∧ (ValidationError.mk "mail.cc" "string") ≠ ⟨"mail.from", "string"⟩ := by decide

/-- C2 (amended): the callback receives the error of the earliest violated
check in the order (1) message is an object, (2) `to` non-empty string,
(3) `from`, if present, a non-empty string, (4) `cc`/`bcc`/`html`/`text`
strings if present, (5) attachments an array if present, (6) `from`
present or a default sender configured (reported as `mail.from`); later
checks are short-circuited, and when no check fails the merged payload is
forwarded. -/
theorem send_validation_order (noreply : JSVal) (f : MailFields) (attachments : JSVal) :
    ((send noreply .notObject attachments).outcome = .err ⟨"mail", "Object"⟩)
    ∧ ((send noreply (.mk f) attachments).outcome =
        (((orderedChecks noreply f attachments).find? (fun c => c.1)).elim
          (.sent {f with «from» := jsOr f.«from» noreply} attachments)
          (fun c => .err c.2))) := by
  refine ⟨rfl, ?_⟩
  rw [send_mk_eq]
  cases hfind : (orderedChecks noreply f attachments).find? (fun c => c.1) <;>
    simp [hfind]

/-- C3: the transport's `sendMail` is reached exactly on the inputs passing
every validation check; any violation hands the callback a validation
error instead. In particular a message (object) whose `to` is missing
yields the `ValidationError` naming `mail.to`. -/
theorem send_transport_only_when_valid (noreply : JSVal) (mail : MailInput)
    (attachments : JSVal) :
    ((∃ f2 a2, (send noreply mail attachments).outcome = .sent f2 a2)
        ↔ passes noreply mail attachments = true)
    ∧ (passes noreply mail attachments = false →
        ∃ e, (send noreply mail attachments).outcome = .err e)
    ∧ (∀ f, mail = .mk f → isVoid f.«to» = true →
        (send noreply mail attachments).outcome = .err ⟨"mail.to", "string"⟩) := by
  have hiff : (∃ f2 a2, (send noreply mail attachments).outcome = .sent f2 a2)
      ↔ passes noreply mail attachments = true := by
    cases mail with
    | notObject => simp [send, passes]
    | mk f => simpa [passes] using send_sent_iff noreply f attachments
  refine ⟨hiff, ?_, ?_⟩
  · intro hp
    cases ho : (send noreply mail attachments).outcome with
    | err e => exact ⟨e, rfl⟩
    | sent f2 a2 =>
      have hpass : passes noreply mail attachments = true := hiff.mp ⟨f2, a2, ho⟩
      simp [hpass] at hp
  · intro f hf hv
    subst hf
    have hs : isString f.«to» true = false := isString_false_of_isVoid hv true
    simp [send, hs]

theorem send_transport_only_when_valid_witness :
    (send .null (.mk ⟨.undef, .undef, .undef, .undef, .undef, .undef⟩) .undef).outcome
      = .err ⟨"mail.to", "string"⟩ :=
  (send_transport_only_when_valid .null
      (.mk ⟨.undef, .undef, .undef, .undef, .undef, .undef⟩) .undef).2.2
    ⟨.undef, .undef, .undef, .undef, .undef, .undef⟩ rfl (by decide)

/-- C4: evaluation of `send` at the failing input — a message whose `bcc`
is present but not a string — shows the callback receives the
`ValidationError` naming `mail.cc` (with expected type string) instead of
the `mail.bcc` the spec requires: the code's `bcc` check names the wrong
field path. -/
theorem send_bcc_error_names_cc :
    (send .null (.mk ⟨.str "to@x.io", .str "from@x.io", .undef, .num 7, .undef, .undef⟩)
        .undef).outcome
      = .err ⟨"mail.cc", "string"⟩
    ∧ (ValidationError.mk "mail.cc" "string") ≠ ⟨"mail.bcc", "string"⟩ := by decide

/-- C5: every `send` call produces exactly one callback invocation — one
validation failure, or one transport reply relayed by `sendMail` — never
both, never zero (the external transport is modelled as invoking the
callback it is handed exactly once, per the collaborator contract). -/
theorem send_callback_exactly_once (noreply : JSVal) (mail : MailInput)
    (attachments : JSVal) (reply : TransportReply) :
    (callbackCalls noreply mail attachments reply).length = 1
    ∧ ((∃ e, callbackCalls noreply mail attachments reply = [.validationFailure e])
       ∨ callbackCalls noreply mail attachments reply = [.transportResult reply]) := by
  unfold callbackCalls
  cases (send noreply mail attachments).outcome with
  | err e => exact ⟨rfl, .inl ⟨e, rfl⟩⟩
  | sent f2 a2 => exact ⟨rfl, .inr rfl⟩

/-- C6: a successful construction turns an omitted `hostname` into
`"localhost"`, an omitted `secure` into `false`, and an omitted `tls` into
the empty object. -/
theorem construct_defaults (o : Options) (c : Config) (h : construct o = .ok c) :
    (o.hostname = .undef → c.hostname = .str "localhost")
    ∧ (o.secure = .undef → c.secure = .boolean false)
    ∧ (o.tls = .undef → c.tls = .obj true) := by
  obtain ⟨hc, -⟩ := constructOn_ok Config.empty o c h
  subst hc
  refine ⟨?_, ?_, ?_⟩ <;> intro hx <;>
    simp [Config.empty, hostnameSet, secureSet, tlsSet, jsOr, truthy, isDefined, hx]

theorem construct_defaults_witness :
    (Config.mk (.obj false) (.str "localhost") .null .null .null (.obj true)
        (.boolean false)).hostname = .str "localhost"
    ∧ (Config.mk (.obj false) (.str "localhost") .null .null .null (.obj true)
        (.boolean false)).secure = .boolean false
    ∧ (Config.mk (.obj false) (.str "localhost") .null .null .null (.obj true)
        (.boolean false)).tls = .obj true :=
  ⟨(construct_defaults ⟨.obj false, .undef, .undef, .undef, .undef, .undef, .undef⟩
      ⟨.obj false, .str "localhost", .null, .null, .null, .obj true, .boolean false⟩ rfl).1 rfl,
   (construct_defaults ⟨.obj false, .undef, .undef, .undef, .undef, .undef, .undef⟩
      ⟨.obj false, .str "localhost", .null, .null, .null, .obj true, .boolean false⟩ rfl).2.1 rfl,
   (construct_defaults ⟨.obj false, .undef, .undef, .undef, .undef, .undef, .undef⟩
      ⟨.obj false, .str "localhost", .null, .null, .null, .obj true, .boolean false⟩ rfl).2.2 rfl⟩

/-- C7: construction from an options record whose `auth` is missing or not
an object fails with the `ValidationError` naming `auth` with expected
type Object. -/
theorem construct_missing_auth (o : Options) (h : isObject o.auth = false) :
    construct o = .error ⟨"auth", "Object"⟩ := by
  simp [construct, constructOn, authAssign, h]

theorem construct_missing_auth_witness :
    construct ⟨.undef, .undef, .undef, .undef, .undef, .undef, .undef⟩
      = .error ⟨"auth", "Object"⟩ :=
  construct_missing_auth ⟨.undef, .undef, .undef, .undef, .undef, .undef, .undef⟩ rfl

/-- C8 counterexample: the `hostname` field can hold the defined value `""`
(the empty string passes the property's `validate` hook), and a subsequent
assignment of another string is then *not* ignored — the truthiness-based
set hook `this.hostname || val` overwrites the falsy stored value, against
the claim that any defined value is write-once. -/
theorem hostname_defined_overwrite_counterexample :
    isDefined (.str "") = true
    ∧ hostnameAssign (.str "") (.str "mail2.example.org") = .ok (.str "mail2.example.org")
    ∧ JSVal.str "mail2.example.org" ≠ .str "" :=
  ⟨rfl, rfl, by decide⟩

/-- C8 (amended): fields guarded by a definedness check (`name`, `noreply`,
`port`, `secure`) are write-once after holding any defined value, and
fields guarded by a truthiness check (`auth`, `hostname`, `tls`) are
write-once after holding a truthy value; every value the configuration
step stores is kept by its hook, so running the configuration step twice
on the same instance — with different `hostname` values in particular —
leaves the first configuration entirely in effect; only a field manually
set to a falsy defined value (such as `hostname` assigned `""`) can be
overwritten. -/
theorem configure_twice_write_once (o o₂ : Options) (c c₂ : Config)
    (h1 : construct o = .ok c) (h2 : constructOn c o₂ = .ok c₂) : c₂ = c :=
  constructOn_good_fixed c o₂ c₂ (constructOn_ok_good Config.empty o c h1) h2

theorem configure_twice_write_once_witness :
    construct ⟨.obj false, .str "host1", .undef, .undef, .undef, .undef, .undef⟩
      = .ok ⟨.obj false, .str "host1", .null, .null, .null, .obj true, .boolean false⟩
    ∧ constructOn ⟨.obj false, .str "host1", .null, .null, .null, .obj true, .boolean false⟩
        ⟨.obj false, .str "host2", .undef, .undef, .undef, .undef, .undef⟩
      = .ok ⟨.obj false, .str "host1", .null, .null, .null, .obj true, .boolean false⟩
    ∧ (Config.mk (.obj false) (.str "host1") .null .null .null (.obj true) (.boolean false))
      = ⟨.obj false, .str "host1", .null, .null, .null, .obj true, .boolean false⟩ :=
  ⟨rfl, rfl,
   configure_twice_write_once
     ⟨.obj false, .str "host1", .undef, .undef, .undef, .undef, .undef⟩
     ⟨.obj false, .str "host2", .undef, .undef, .undef, .undef, .undef⟩
     ⟨.obj false, .str "host1", .null, .null, .null, .obj true, .boolean false⟩
     ⟨.obj false, .str "host1", .null, .null, .null, .obj true, .boolean false⟩
     rfl rfl⟩

/-- C9: on the success path with a configured default sender and a message
omitting `from`, `send` mutates the caller's mail object in place — its
`from` field afterwards holds the noreply address, so the caller-visible
input is not left unchanged — and forwards the merged copy (mail fields
plus attachments) to the transport. -/
theorem send_mutates_mail_from (s : String) (f : MailFields) (attachments : JSVal)
    (hs : s ≠ "") (hfrom : isVoid f.«from» = true)
    (hto : isString f.«to» true = true) (hrest : restOk f attachments = true) :
    (send (.str s) (.mk f) attachments).mailAfter = .mk {f with «from» := .str s}
    ∧ (send (.str s) (.mk f) attachments).mailAfter ≠ .mk f
    ∧ (send (.str s) (.mk f) attachments).outcome
        = .sent {f with «from» := .str s} attachments := by
  have hs2 : truthy (.str s) = true := by simp [truthy, hs]
  have h := send_subst (.str s) f attachments hfrom hto hrest hs2
  rw [h]
  refine ⟨rfl, ?_, rfl⟩
  intro hcontra
  injection hcontra with h2
  have h3 : JSVal.str s = f.«from» := congrArg MailFields.«from» h2
  rw [← h3] at hfrom
  simp [isVoid] at hfrom

theorem send_mutates_mail_from_witness :
    (send (.str "noreply@x.io")
        (.mk ⟨.str "to@x.io", .undef, .undef, .undef, .undef, .undef⟩) .arr).mailAfter
      = .mk ⟨.str "to@x.io", .str "noreply@x.io", .undef, .undef, .undef, .undef⟩
    ∧ (send (.str "noreply@x.io")
        (.mk ⟨.str "to@x.io", .undef, .undef, .undef, .undef, .undef⟩) .arr).mailAfter
      ≠ .mk ⟨.str "to@x.io", .undef, .undef, .undef, .undef, .undef⟩
    ∧ (send (.str "noreply@x.io")
        (.mk ⟨.str "to@x.io", .undef, .undef, .undef, .undef, .undef⟩) .arr).outcome
      = .sent ⟨.str "to@x.io", .str "noreply@x.io", .undef, .undef, .undef, .undef⟩ .arr :=
  send_mutates_mail_from "noreply@x.io"
    ⟨.str "to@x.io", .undef, .undef, .undef, .undef, .undef⟩ .arr
    (by decide) (by decide) (by decide) (by decide)

/-- C10: a message whose `from` field is present but equal to the empty
string is rejected with the `ValidationError` naming `mail.from` whatever
`noreply` is configured: the non-empty-string check fires before the
default-sender substitution, which only an absent (void) `from` reaches. -/
theorem send_empty_from_rejected (noreply : JSVal) (f : MailFields)
    (attachments : JSVal) (hfrom : f.«from» = .str "")
    (hto : isString f.«to» true = true) :
    (send noreply (.mk f) attachments).outcome = .err ⟨"mail.from", "string"⟩ := by
  simp [send, hto, hfrom,
    show isVoid (JSVal.str "") = false from rfl,
    show isString (JSVal.str "") true = false from rfl]

theorem send_empty_from_rejected_witness :
    (send (.str "noreply@x.io")
        (.mk ⟨.str "to@x.io", .str "", .undef, .undef, .undef, .undef⟩) .undef).outcome
      = .err ⟨"mail.from", "string"⟩ :=
  send_empty_from_rejected (.str "noreply@x.io")
    ⟨.str "to@x.io", .str "", .undef, .undef, .undef, .undef⟩ .undef rfl (by decide)

end XPMailer
